import Mathlib

/-!
Shallow embedding of `src/client/src/pages/services.tsx` (and the request
surface it generates) from the SalonPilot repository.

The page's original logic consists of:
  * two coercion helpers `toNumber` / `toBool`,
  * the zod `serviceSchema` used by the form resolver,
  * the submit handler `onSubmit` assembling a normalized payload,
  * the mutation functions for POST `/api/services` and PUT `/api/services/{id}`
    with the `onApiError` toast path,
  * the submit button that is disabled while a mutation is pending.

JavaScript runtime values are modelled by the inductive `JSValue`; JavaScript
numbers by `JSNum` (rationals plus NaN and signed infinities — none of the
verified properties depend on IEEE rounding, only on finiteness and on which
branch of the source is taken).
-/

set_option autoImplicit false

namespace SalonPilot

/-- Model of a JavaScript number: a finite value (as a rational), NaN, or a
signed infinity.  Rationals stand in for IEEE doubles; the properties proved
below depend only on finiteness and branch structure, never on rounding. -/
inductive JSNum where
  | finite (q : ℚ)
  | nan
  | inf (negative : Bool)
deriving DecidableEq, Repr

/-- `Number.isFinite` on the number model. -/
def JSNum.isFinite : JSNum → Bool
  | .finite _ => true
  | _ => false

/-- Model of a JavaScript runtime value as it can reach the logic of
`services.tsx`: strings, numbers, booleans, arrays, plain objects, `null`
and `undefined`. -/
inductive JSValue where
  | str (s : String)
  | num (n : JSNum)
  | bool (b : Bool)
  | arr (elems : List JSValue)
  | obj (fields : List (String × JSValue))
  | null
  | undefined

/-- `typeof v === "string"`. -/
def isStrB : JSValue → Bool
  | .str _ => true
  | _ => false

/-- `typeof v === "number"`. -/
def isNumB : JSValue → Bool
  | .num _ => true
  | _ => false

/-- `typeof v === "boolean"`. -/
def isBoolB : JSValue → Bool
  | .bool _ => true
  | _ => false

/-- `Array.isArray(v)`. -/
def isArrayB : JSValue → Bool
  | .arr _ => true
  | _ => false

/- ### Model of the JavaScript `Number(string)` coercion

`Number` applied to a string trims whitespace, maps the empty remainder to
`0`, accepts an optionally signed decimal literal (with optional fraction and
exponent) or `Infinity`, accepts unsigned `0x`/`0b`/`0o` radix literals, and
yields `NaN` on anything else.  Digit strings are evaluated exactly (as
rationals) rather than rounded to doubles. -/

/-- Model of the JavaScript `String.prototype.trim`: strip leading and
trailing whitespace. -/
def jsTrim (s : String) : String :=
  ⟨((s.toList.dropWhile Char.isWhitespace).reverse.dropWhile Char.isWhitespace).reverse⟩

/-- Numeric value of a list of decimal digit characters. -/
def decDigitsVal (cs : List Char) : Nat :=
  cs.foldl (fun a c => 10 * a + (c.toNat - 48)) 0

/-- Numeric value of one hexadecimal digit character. -/
def hexDigitVal (c : Char) : Nat :=
  if c.isDigit then c.toNat - 48
  else if 97 ≤ c.toNat then c.toNat - 87
  else c.toNat - 55

/-- Numeric value of a list of base-`base` digit characters. -/
def radixDigitsVal (base : Nat) (cs : List Char) : Nat :=
  cs.foldl (fun a c => base * a + hexDigitVal c) 0

/-- Is `c` a hexadecimal digit? -/
def isHexDigitChar (c : Char) : Bool :=
  c.isDigit || (97 ≤ c.toNat && c.toNat ≤ 102) || (65 ≤ c.toNat && c.toNat ≤ 70)

/-- Is `c` a binary digit? -/
def isBinDigitChar (c : Char) : Bool :=
  c == '0' || c == '1'

/-- Is `c` an octal digit? -/
def isOctDigitChar (c : Char) : Bool :=
  48 ≤ c.toNat && c.toNat ≤ 55

/-- Split a character list at the first character satisfying `p` (the
separator is dropped); `none` when no separator occurs. -/
def splitAtFirst (p : Char → Bool) (cs : List Char) : List Char × Option (List Char) :=
  match cs.span (fun c => !(p c)) with
  | (pre, []) => (pre, none)
  | (pre, _ :: rest) => (pre, some rest)

/-- Parse the mantissa part of a decimal literal: `digits`, `digits.digits`,
`digits.` or `.digits`. -/
def parseMantissa (cs : List Char) : Option ℚ :=
  match splitAtFirst (fun c => c == '.') cs with
  | (ip, none) =>
      if !ip.isEmpty && ip.all Char.isDigit then some (decDigitsVal ip : ℚ) else none
  | (ip, some fp) =>
      if (!ip.isEmpty || !fp.isEmpty) && ip.all Char.isDigit && fp.all Char.isDigit then
        some ((decDigitsVal ip : ℚ) + (decDigitsVal fp : ℚ) / (10 : ℚ) ^ fp.length)
      else none

/-- Parse the exponent part of a decimal literal: optionally signed digits. -/
def parseExponent (cs : List Char) : Option Int :=
  match cs with
  | '+' :: rest =>
      if !rest.isEmpty && rest.all Char.isDigit then some (decDigitsVal rest : Int) else none
  | '-' :: rest =>
      if !rest.isEmpty && rest.all Char.isDigit then some (-(decDigitsVal rest : Int)) else none
  | _ =>
      if !cs.isEmpty && cs.all Char.isDigit then some (decDigitsVal cs : Int) else none

/-- Parse an unsigned decimal literal, with optional exponent. -/
def parseUnsignedDecimal (cs : List Char) : Option ℚ :=
  match splitAtFirst (fun c => c == 'e' || c == 'E') cs with
  | (mant, none) => parseMantissa mant
  | (mant, some ecs) =>
      match parseMantissa mant, parseExponent ecs with
      | some m, some e => some (m * (10 : ℚ) ^ e)
      | _, _ => none

/-- Parse the part of a numeric string after the optional sign:
`Infinity`, or an unsigned decimal literal; anything else is NaN. -/
def parseSignedDecimalCore (rest : List Char) (neg : Bool) : JSNum :=
  if rest = "Infinity".toList then .inf neg
  else
    match parseUnsignedDecimal rest with
    | some q => .finite (if neg then -q else q)
    | none => .nan

/-- Parse an optionally signed decimal literal or `Infinity`. -/
def parseSignedDecimal (cs : List Char) : JSNum :=
  match cs with
  | '+' :: rest => parseSignedDecimalCore rest false
  | '-' :: rest => parseSignedDecimalCore rest true
  | _ => parseSignedDecimalCore cs false

/-- Parse an unsigned `0x` / `0b` / `0o` radix literal (no sign allowed,
matching JavaScript). -/
def parseRadixLiteral (cs : List Char) : Option ℚ :=
  match cs with
  | '0' :: x :: rest =>
      if (x == 'x' || x == 'X') && !rest.isEmpty && rest.all isHexDigitChar then
        some (radixDigitsVal 16 rest : ℚ)
      else if (x == 'b' || x == 'B') && !rest.isEmpty && rest.all isBinDigitChar then
        some (radixDigitsVal 2 rest : ℚ)
      else if (x == 'o' || x == 'O') && !rest.isEmpty && rest.all isOctDigitChar then
        some (radixDigitsVal 8 rest : ℚ)
      else none
  | _ => none

/-- Model of the JavaScript builtin `Number` coercion applied to a string:
trims whitespace, maps the empty remainder to `0`, then parses a radix
literal or a signed decimal literal / `Infinity`, and yields NaN otherwise. -/
def jsStringToNumber (s : String) : JSNum :=
  let t := jsTrim s
  if t.isEmpty then .finite 0
  else
    match parseRadixLiteral t.toList with
    | some q => .finite q
    | none => parseSignedDecimal t.toList

/- ### The two coercion helpers of services.tsx

Source (lines 46-59):
```
const toNumber = (v: unknown, fallback = 0) =>
  if (typeof v === "number") return v;
  if (typeof v === "string")
    const n = Number(v.trim());
    return Number.isFinite(n) ? n : fallback;
  return fallback;

const toBool = (v: unknown, fallback = false) =>
  if (typeof v === "boolean") return v;
  if (typeof v === "string") return v === "true";
  return fallback;
```
-/

/-- `toNumber` from services.tsx, with an explicit fallback argument. -/
def toNumber (v : JSValue) (fallback : JSNum) : JSNum :=
  match v with
  | .num n => n
  | .str s =>
      let n := jsStringToNumber (jsTrim s)
      if n.isFinite then n else fallback
  | _ => fallback

/-- `toNumber` at its default fallback `0` (the source declares
`fallback = 0` as a default parameter). -/
def toNumberD (v : JSValue) : JSNum := toNumber v (.finite 0)

/-- `toBool` from services.tsx, with an explicit fallback argument. -/
def toBool (v : JSValue) (fallback : Bool) : Bool :=
  match v with
  | .bool b => b
  | .str s => s == "true"
  | _ => fallback

/-- `toBool` at its default fallback `false` (the source declares
`fallback = false` as a default parameter). -/
def toBoolD (v : JSValue) : Bool := toBool v false

/- ### serviceSchema (zod, lines 32-41)

```
const serviceSchema = z.object(
  name: z.string().min(1, "Nom requis"),
  description: z.string().optional().default(""),
  price: z.union([z.number(), z.string()]),
  duration: z.union([z.number(), z.string()]),
  breakBefore: z.union([z.number(), z.string()]).optional(),
  breakAfter: z.union([z.number(), z.string()]).optional(),
  tags: z.array(z.string()).optional(),
  depositRequired: z.union([z.boolean(), z.string()]).optional());
```

Each field validator returns `Except String JSValue`; the object parse
collects the issues of all fields in key order (as zod's `safeParse` does).
Only the `"Nom requis"` message is fixed by the source; the invalid-type
messages stand in for zod's default ones. -/

/-- The raw value handed to the schema for one field; a missing key is
represented by `undefined` (zod's `.optional()` treats them alike). -/
def errsOf : Except String JSValue → List String
  | .ok _ => []
  | .error e => [e]

/-- The parsed value of a succeeding field validator (`undefined` is never
reached on the success path). -/
def okVal : Except String JSValue → JSValue
  | .ok v => v
  | .error _ => .undefined

/-- Did the field validator accept? -/
def isOkB : Except String JSValue → Bool
  | .ok _ => true
  | .error _ => false

/-- `z.string().min(1, "Nom requis")`. -/
def zNameField (v : JSValue) : Except String JSValue :=
  match v with
  | .str s => if 1 ≤ s.length then .ok (.str s) else .error "Nom requis"
  | _ => .error "Expected string"

/-- `z.string().optional().default("")`: `undefined` becomes `""`. -/
def zDescriptionField (v : JSValue) : Except String JSValue :=
  match v with
  | .undefined => .ok (.str "")
  | .str s => .ok (.str s)
  | _ => .error "Expected string"

/-- `z.union([z.number(), z.string()])`.  zod classifies `NaN` as its own
parsed type, so `z.number()` rejects it (infinities pass as numbers); a
string branch never matches a number, so the union rejects `NaN` outright. -/
def zNumOrStr (v : JSValue) : Except String JSValue :=
  match v with
  | .num .nan => .error "Expected number or string"
  | .num n => .ok (.num n)
  | .str s => .ok (.str s)
  | _ => .error "Expected number or string"

/-- `z.array(z.string())`. -/
def zStringArray (v : JSValue) : Except String JSValue :=
  match v with
  | .arr xs => if xs.all isStrB then .ok (.arr xs) else .error "Expected array of strings"
  | _ => .error "Expected array"

/-- `z.union([z.boolean(), z.string()])`. -/
def zBoolOrStr (v : JSValue) : Except String JSValue :=
  match v with
  | .bool b => .ok (.bool b)
  | .str s => .ok (.str s)
  | _ => .error "Expected boolean or string"

/-- `.optional()`: `undefined` passes through. -/
def zOptional (f : JSValue → Except String JSValue) (v : JSValue) : Except String JSValue :=
  match v with
  | .undefined => .ok .undefined
  | _ => f v

/-- The raw (pre-validation) form input: one JavaScript value per schema
key, `undefined` standing for an omitted field. -/
structure RawInput where
  name : JSValue
  description : JSValue
  price : JSValue
  duration : JSValue
  breakBefore : JSValue
  breakAfter : JSValue
  tags : JSValue
  depositRequired : JSValue

/-- The parsed form value (`ServiceFormData` in the source): the same keys,
now guaranteed by the schema to have the right shapes (description has had
its default applied). -/
structure ServiceFormData where
  name : JSValue
  description : JSValue
  price : JSValue
  duration : JSValue
  breakBefore : JSValue
  breakAfter : JSValue
  tags : JSValue
  depositRequired : JSValue

/-- All issues raised by `serviceSchema` on `r`, in key order. -/
def serviceSchemaErrors (r : RawInput) : List String :=
  errsOf (zNameField r.name) ++
  errsOf (zDescriptionField r.description) ++
  errsOf (zNumOrStr r.price) ++
  errsOf (zNumOrStr r.duration) ++
  errsOf (zOptional zNumOrStr r.breakBefore) ++
  errsOf (zOptional zNumOrStr r.breakAfter) ++
  errsOf (zOptional zStringArray r.tags) ++
  errsOf (zOptional zBoolOrStr r.depositRequired)

/-- `serviceSchema.safeParse`: succeeds with the parsed value when no field
raises an issue, and fails with the issue list otherwise. -/
def serviceSchemaParse (r : RawInput) : Except (List String) ServiceFormData :=
  if serviceSchemaErrors r = [] then
    .ok
      { name := okVal (zNameField r.name)
        description := okVal (zDescriptionField r.description)
        price := okVal (zNumOrStr r.price)
        duration := okVal (zNumOrStr r.duration)
        breakBefore := okVal (zOptional zNumOrStr r.breakBefore)
        breakAfter := okVal (zOptional zNumOrStr r.breakAfter)
        tags := okVal (zOptional zStringArray r.tags)
        depositRequired := okVal (zOptional zBoolOrStr r.depositRequired) }
  else .error (serviceSchemaErrors r)

/- ### onSubmit (lines 164-183) and the requests the page can issue -/

/-- The salon record returned by the `/api/salon` query, to the extent the
page uses it: only its `id` is ever read (`salon?.id`). -/
structure Salon where
  id : String

/-- The service being edited, to the extent `onSubmit` uses it: only its
`id` is read (`editing.id`). -/
structure EditingService where
  id : String

/-- The normalized payload `cleaned` built by `onSubmit`.  The field types
record what the normalization guarantees: `price`, `duration` and the two
breaks are always numbers, `depositRequired` is always a boolean, `salonId`
is the salon id or `undefined` (`none`). -/
structure Payload where
  salonId : Option String
  name : JSValue
  description : JSValue
  price : JSNum
  duration : JSNum
  breakBefore : JSNum
  breakAfter : JSNum
  tags : JSValue
  depositRequired : Bool

/-- JavaScript `a ?? b` (nullish coalescing). -/
def jsNullishCoalesce (a b : JSValue) : JSValue :=
  match a with
  | .null => b
  | .undefined => b
  | _ => a

/-- The `cleaned` object of `onSubmit` (lines 166-176):
`salonId: salon?.id ?? undefined`, `name: data.name`,
`description: data.description ?? ""`, `price: toNumber(data.price)`,
`duration: toNumber(data.duration)`, `breakBefore: toNumber(data.breakBefore, 0)`,
`breakAfter: toNumber(data.breakAfter, 0)`,
`tags: Array.isArray(data.tags) ? data.tags : []`,
`depositRequired: toBool(data.depositRequired, false)`. -/
def onSubmitClean (salon : Option Salon) (data : ServiceFormData) : Payload :=
  { salonId := salon.map Salon.id
    name := data.name
    description := jsNullishCoalesce data.description (.str "")
    price := toNumberD data.price
    duration := toNumberD data.duration
    breakBefore := toNumber data.breakBefore (.finite 0)
    breakAfter := toNumber data.breakAfter (.finite 0)
    tags := if isArrayB data.tags then data.tags else .arr []
    depositRequired := toBool data.depositRequired false }

/-- HTTP method of a request issued by the page. -/
inductive Method where
  | GET
  | POST
  | PUT
deriving DecidableEq, Repr

/-- A request the page can issue: method, url, optional payload body. -/
structure Request where
  method : Method
  url : String
  body : Option Payload

/-- The read-only query `useQuery(queryKey: ["/api/salon"])`. -/
def salonQueryRequest : Request :=
  { method := .GET, url := "/api/salon", body := none }

/-- The read-only query `useQuery(queryKey: ["/api/services"])`. -/
def servicesQueryRequest : Request :=
  { method := .GET, url := "/api/services", body := none }

/-- The mutation request issued at the end of `onSubmit` (lines 178-182):
`PUT /api/services/id` with the cleaned payload when editing, and
`POST /api/services` with it otherwise. -/
def submitRequest (editing : Option EditingService) (salon : Option Salon)
    (data : ServiceFormData) : Request :=
  let cleaned := onSubmitClean salon data
  match editing with
  | some e => { method := .PUT, url := "/api/services/" ++ e.id, body := some cleaned }
  | none => { method := .POST, url := "/api/services", body := some cleaned }

/-- `form.handleSubmit(onSubmit)` with the `zodResolver(serviceSchema)`:
the raw input is validated first, and `onSubmit` runs (issuing a request)
only when validation succeeds; validation failure issues no request. -/
def handleSubmit (editing : Option EditingService) (salon : Option Salon)
    (r : RawInput) : Option Request :=
  match serviceSchemaParse r with
  | .ok data => some (submitRequest editing salon data)
  | .error _ => none

/- ### onApiError (lines 89-104) and the two mutation functions -/

/-- An HTTP response, to the extent the mutation functions inspect it:
`ok`, the result of `res.json()` (`none` when parsing the body throws) and
the result of `res.text()` (`none` when reading the body throws). -/
structure Response where
  ok : Bool
  json : Option JSValue
  text : Option String

/-- JavaScript truthiness of a value. -/
def truthy : JSValue → Bool
  | .str s => !(s == "")
  | .num n =>
      match n with
      | .finite q => !(q == 0)
      | .nan => false
      | .inf _ => true
  | .bool b => b
  | .arr _ => true
  | .obj _ => true
  | .null => false
  | .undefined => false

/-- JavaScript `a || b`. -/
def jsOr (a b : JSValue) : JSValue :=
  if truthy a then a else b

/-- `data?.message`: the `message` property when `data` is an object having
one, and `undefined` otherwise (including through `?.` on null/undefined and
property access on primitives). -/
def jsMessageField (data : JSValue) : JSValue :=
  match data with
  | .obj fields =>
      match fields.lookup "message" with
      | some v => v
      | none => .undefined
  | _ => .undefined

/-- Rendering of a number inside `jsonStringify`.  Simplified model of the
builtin: non-finite numbers serialize to `null` as in JavaScript; finite
values print as rationals rather than as shortest decimal doubles (no
verified property depends on the rendering). -/
def jsNumRender : JSNum → String
  | .finite q => if q.den = 1 then toString q.num else toString q.num ++ "/" ++ toString q.den
  | .nan => "null"
  | .inf _ => "null"

mutual

/-- Simplified model of the builtin `JSON.stringify` (string escaping and
the undefined-dropping rules are omitted; no verified property depends on
the exact rendering, only on the branch structure of `onApiError`). -/
def jsonStringify : JSValue → String
  | .str s => "\"" ++ s ++ "\""
  | .num n => jsNumRender n
  | .bool b => if b then "true" else "false"
  | .arr xs => "[" ++ jsonStringifyList xs ++ "]"
  | .obj fields => "\x7b" ++ jsonStringifyFields fields ++ "\x7d"
  | .null => "null"
  | .undefined => "null"

/-- Comma-separated serialization of array elements. -/
def jsonStringifyList : List JSValue → String
  | [] => ""
  | [x] => jsonStringify x
  | x :: y :: rest => jsonStringify x ++ "," ++ jsonStringifyList (y :: rest)

/-- Comma-separated serialization of object fields. -/
def jsonStringifyFields : List (String × JSValue) → String
  | [] => ""
  | [(k, v)] => "\"" ++ k ++ "\":" ++ jsonStringify v
  | (k, v) :: f :: rest =>
      "\"" ++ k ++ "\":" ++ jsonStringify v ++ "," ++ jsonStringifyFields (f :: rest)

end

/-- The `msg` value computed by `onApiError` before the toast call:
`data?.message || JSON.stringify(data)` when `res.json()` succeeds, else
`res.text()` when that succeeds, else the initial `"Erreur inconnue"`.
(When `data?.message` is a truthy non-string the source keeps that value;
hence the result is a `JSValue`.) -/
def apiErrorMessage (res : Response) : JSValue :=
  match res.json with
  | some data => jsOr (jsMessageField data) (.str (jsonStringify data))
  | none =>
      match res.text with
      | some t => .str t
      | none => .str "Erreur inconnue"

/-- A toast notification as the page raises them. -/
structure Toast where
  title : String
  description : JSValue
  destructive : Bool

/-- The toast raised by `onApiError`: title `"Erreur"`, description
`msg || "Impossible de créer le service."`, destructive variant. -/
def onApiError (res : Response) : Toast :=
  { title := "Erreur"
    description := jsOr (apiErrorMessage res) (.str "Impossible de créer le service.")
    destructive := true }

/-- Outcome of a mutation function: a fulfilled promise with the parsed
body, an explicit `throw new Error(...)`, or a rejection of `res.json()`
itself on an ok response with an unparseable body. -/
inductive MutResult where
  | success (body : JSValue)
  | thrown (msg : String)
  | jsonRejected

/-- The `mutationFn` of `createServiceMutation` (lines 107-114), given the
response to `POST /api/services`: on `!res.ok` it runs `onApiError` and then
throws `"create failed"`; otherwise it returns `res.json()`.  The second
component lists the toasts raised. -/
def createMutationFn (res : Response) : MutResult × List Toast :=
  if res.ok then
    match res.json with
    | some j => (.success j, [])
    | none => (.jsonRejected, [])
  else (.thrown "create failed", [onApiError res])

/-- The `mutationFn` of `updateServiceMutation` (lines 134-141), given the
response to `PUT /api/services/id`: same shape with `"update failed"`. -/
def updateMutationFn (res : Response) : MutResult × List Toast :=
  if res.ok then
    match res.json with
    | some j => (.success j, [])
    | none => (.jsonRejected, [])
  else (.thrown "update failed", [onApiError res])

/- ### The submit button (lines 329-340) -/

/-- The `disabled` prop of the submit button:
`createServiceMutation.isPending || updateServiceMutation.isPending`. -/
def submitButtonDisabled (createPending updatePending : Bool) : Bool :=
  createPending || updatePending

/-- The label of the submit button: `"Enregistrement..."` while a mutation
is pending, `"Enregistrer"` otherwise. -/
def submitButtonLabel (createPending updatePending : Bool) : String :=
  if createPending || updatePending then "Enregistrement..." else "Enregistrer"

/-- A submission attempt from the dialog.  Modelled browser semantics: a
form whose submit button is rendered `disabled` cannot be submitted from
that button, so no request is started; otherwise the attempt goes through
`handleSubmit`. -/
def dialogSubmitAttempt (createPending updatePending : Bool)
    (editing : Option EditingService) (salon : Option Salon)
    (r : RawInput) : Option Request :=
  if submitButtonDisabled createPending updatePending then none
  else handleSubmit editing salon r

/- ### Concrete example values used to instantiate the theorems below -/

/-- A well-formed raw form input: non-empty name, string price, numeric
duration, all optional fields omitted. -/
def exampleRaw : RawInput :=
  { name := .str "Coupe", description := .undefined, price := .str "35"
    duration := .num (.finite 30), breakBefore := .undefined, breakAfter := .undefined
    tags := .undefined, depositRequired := .undefined }

/-- The parsed form value of `exampleRaw`. -/
def exampleData : ServiceFormData :=
  { name := .str "Coupe", description := .str "", price := .str "35"
    duration := .num (.finite 30), breakBefore := .undefined, breakAfter := .undefined
    tags := .undefined, depositRequired := .undefined }

/-- A raw form input with a valid name, price and duration but an ill-typed
(numeric) description. -/
def illTypedDescriptionRaw : RawInput :=
  { name := .str "Coupe", description := .num (.finite 0), price := .str "35"
    duration := .num (.finite 30), breakBefore := .undefined, breakAfter := .undefined
    tags := .undefined, depositRequired := .undefined }

/-- A raw form input with an empty name and every optional field omitted. -/
def emptyNameRaw : RawInput :=
  { name := .str "", description := .undefined, price := .str "35"
    duration := .str "30", breakBefore := .undefined, breakAfter := .undefined
    tags := .undefined, depositRequired := .undefined }

/-- A failing response whose JSON body carries a `message` field. -/
def exampleFailResponse : Response :=
  { ok := false, json := some (.obj [("message", .str "Service invalide")]), text := none }

/-- A successful response with an empty-object JSON body. -/
def exampleOkResponse : Response :=
  { ok := true, json := some (.obj []), text := some "" }

/-- Is the value other than a non-finite number?  (A string, a finite
number, or any non-number value.) -/
def isNotNonFiniteNumB (v : JSValue) : Bool :=
  match v with
  | .num n => n.isFinite
  | _ => true

/- ### Helper lemmas -/

/-- zod rejects `NaN` where a number is expected: the number-or-string
union fails on it. -/
theorem zNumOrStr_rejects_nan :
    zNumOrStr (.num .nan) = .error "Expected number or string" := rfl

/-- A field validator with no issues accepted, and its parsed value is
`okVal`. -/
theorem errsOf_eq_nil {e : Except String JSValue} (h : errsOf e = []) :
    e = .ok (okVal e) := by
  cases e with
  | ok v => rfl
  | error s => simp [errsOf] at h

/-- An accepted field validator raises no issues. -/
theorem errsOf_of_isOkB {e : Except String JSValue} (h : isOkB e = true) :
    errsOf e = [] := by
  cases e with
  | ok v => rfl
  | error s => simp [isOkB] at h

/-- Successful schema parsing determines every field of the parsed value
through its validator. -/
theorem serviceSchemaParse_ok_fields {r : RawInput} {data : ServiceFormData}
    (h : serviceSchemaParse r = .ok data) :
    zNameField r.name = .ok data.name ∧
    zDescriptionField r.description = .ok data.description ∧
    zNumOrStr r.price = .ok data.price ∧
    zNumOrStr r.duration = .ok data.duration ∧
    zOptional zNumOrStr r.breakBefore = .ok data.breakBefore ∧
    zOptional zNumOrStr r.breakAfter = .ok data.breakAfter ∧
    zOptional zStringArray r.tags = .ok data.tags ∧
    zOptional zBoolOrStr r.depositRequired = .ok data.depositRequired := by
  unfold serviceSchemaParse at h
  by_cases he : serviceSchemaErrors r = []
  · rw [if_pos he] at h
    unfold serviceSchemaErrors at he
    simp only [List.append_eq_nil] at he
    obtain ⟨⟨⟨⟨⟨⟨⟨h1, h2⟩, h3⟩, h4⟩, h5⟩, h6⟩, h7⟩, h8⟩ := he
    cases h
    exact ⟨errsOf_eq_nil h1, errsOf_eq_nil h2, errsOf_eq_nil h3, errsOf_eq_nil h4,
      errsOf_eq_nil h5, errsOf_eq_nil h6, errsOf_eq_nil h7, errsOf_eq_nil h8⟩
  · rw [if_neg he] at h
    exact absurd h (by simp)

/-- A value accepted by the description validator is a string. -/
theorem zDescriptionField_ok_str {v w : JSValue} (h : zDescriptionField v = .ok w) :
    ∃ s : String, w = .str s := by
  cases v <;> simp [zDescriptionField] at h
  case str s => exact ⟨s, h.symm⟩
  case undefined => exact ⟨"", h.symm⟩

/-- When every field validator accepts, the schema raises no issues. -/
theorem serviceSchemaErrors_eq_nil {r : RawInput}
    (h1 : isOkB (zNameField r.name) = true)
    (h2 : isOkB (zDescriptionField r.description) = true)
    (h3 : isOkB (zNumOrStr r.price) = true)
    (h4 : isOkB (zNumOrStr r.duration) = true)
    (h5 : isOkB (zOptional zNumOrStr r.breakBefore) = true)
    (h6 : isOkB (zOptional zNumOrStr r.breakAfter) = true)
    (h7 : isOkB (zOptional zStringArray r.tags) = true)
    (h8 : isOkB (zOptional zBoolOrStr r.depositRequired) = true) :
    serviceSchemaErrors r = [] := by
  unfold serviceSchemaErrors
  rw [errsOf_of_isOkB h1, errsOf_of_isOkB h2, errsOf_of_isOkB h3, errsOf_of_isOkB h4,
    errsOf_of_isOkB h5, errsOf_of_isOkB h6, errsOf_of_isOkB h7, errsOf_of_isOkB h8]
  rfl

/-- When every field validator accepts, the schema parse succeeds. -/
theorem serviceSchemaParse_ok_of {r : RawInput}
    (h1 : isOkB (zNameField r.name) = true)
    (h2 : isOkB (zDescriptionField r.description) = true)
    (h3 : isOkB (zNumOrStr r.price) = true)
    (h4 : isOkB (zNumOrStr r.duration) = true)
    (h5 : isOkB (zOptional zNumOrStr r.breakBefore) = true)
    (h6 : isOkB (zOptional zNumOrStr r.breakAfter) = true)
    (h7 : isOkB (zOptional zStringArray r.tags) = true)
    (h8 : isOkB (zOptional zBoolOrStr r.depositRequired) = true) :
    serviceSchemaParse r = .ok
      { name := okVal (zNameField r.name)
        description := okVal (zDescriptionField r.description)
        price := okVal (zNumOrStr r.price)
        duration := okVal (zNumOrStr r.duration)
        breakBefore := okVal (zOptional zNumOrStr r.breakBefore)
        breakAfter := okVal (zOptional zNumOrStr r.breakAfter)
        tags := okVal (zOptional zStringArray r.tags)
        depositRequired := okVal (zOptional zBoolOrStr r.depositRequired) } := by
  unfold serviceSchemaParse
  rw [if_pos (serviceSchemaErrors_eq_nil h1 h2 h3 h4 h5 h6 h7 h8)]

/-- A non-empty-name string field passes the name validator. -/
theorem zNameField_ok_of_ne {s : String} (h : s ≠ "") :
    isOkB (zNameField (.str s)) = true := by
  have hlen : 1 ≤ s.length := by
    by_contra hc
    have h0 : s.length = 0 := by omega
    apply h
    cases s with
    | mk data =>
        have hd : data = [] := List.length_eq_zero.mp h0
        subst hd
        rfl
  simp only [zNameField]
  rw [if_pos hlen]
  rfl

/- ### Claim theorems -/

/-- Claim C2: `toNumber` translates form string input into a number: on a
string `s` it returns `Number(s.trim())` when that value is finite and the
fallback otherwise (in particular `toNumber("")` is `0` since `Number("")`
is `0`); on a number it is the identity; on every value that is neither a
string nor a number it returns the fallback; and its default fallback is
`0`. -/
theorem toNumber_spec :
    (∀ (s : String) (f : JSNum),
        toNumber (.str s) f =
          if (jsStringToNumber (jsTrim s)).isFinite then jsStringToNumber (jsTrim s) else f) ∧
    (∀ f : JSNum, toNumber (.str "") f = .finite 0) ∧
    (∀ (n : JSNum) (f : JSNum), toNumber (.num n) f = n) ∧
    (∀ (v : JSValue) (f : JSNum), isStrB v = false → isNumB v = false → toNumber v f = f) ∧
    (∀ v : JSValue, toNumberD v = toNumber v (.finite 0)) := by
  refine ⟨fun s f => rfl, fun f => rfl, fun n f => rfl, fun v f hs hn => ?_, fun v => rfl⟩
  cases v with
  | str s => simp [isStrB] at hs
  | num n => simp [isNumB] at hn
  | bool b => rfl
  | arr xs => rfl
  | obj fs => rfl
  | null => rfl
  | undefined => rfl

/-- Witness for C2 at concrete inputs: `null` is neither a string nor a
number, so the fallback is returned. -/
theorem toNumber_spec_witness :
    toNumber .null (.finite 5) = .finite 5 ∧ toNumber (.str "") (.finite 7) = .finite 0 :=
  ⟨toNumber_spec.2.2.2.1 .null (.finite 5) rfl rfl, toNumber_spec.2.1 (.finite 7)⟩

/-- Claim C3: `toBool` translates form string input into a boolean: on a
boolean it is the identity; on a string it returns `true` exactly when the
string is `"true"` (case-sensitive, no trimming), `false` for every other
string whatever the fallback; on every value that is neither a boolean nor
a string it returns the fallback; and its default fallback is `false`. -/
theorem toBool_spec :
    (∀ (b : Bool) (f : Bool), toBool (.bool b) f = b) ∧
    (∀ (s : String) (f : Bool), toBool (.str s) f = (s == "true")) ∧
    (∀ (s : String) (f : Bool), (toBool (.str s) f = true ↔ s = "true")) ∧
    (∀ (v : JSValue) (f : Bool), isBoolB v = false → isStrB v = false → toBool v f = f) ∧
    (∀ v : JSValue, toBoolD v = toBool v false) := by
  refine ⟨fun b f => rfl, fun s f => rfl, fun s f => ?_, fun v f hb hs => ?_, fun v => rfl⟩
  · simp [toBool]
  · cases v with
    | str s => simp [isStrB] at hs
    | bool b => simp [isBoolB] at hb
    | num n => rfl
    | arr xs => rfl
    | obj fs => rfl
    | null => rfl
    | undefined => rfl

/-- Witness for C3 at concrete inputs: `"True"` and `" true"` coerce to
`false` even with fallback `true`, and `null` yields the fallback. -/
theorem toBool_spec_witness :
    toBool (.str "True") true = false ∧
    toBool (.str " true") true = false ∧
    toBool .null true = true :=
  ⟨by rw [toBool_spec.2.1 "True" true]; rfl,
   by rw [toBool_spec.2.1 " true" true]; rfl,
   toBool_spec.2.2.2.1 .null true rfl rfl⟩

/-- Claim C9: the coercion helpers are idempotent — re-coercing the (number
resp. boolean) result of `toNumber` / `toBool` changes nothing, and they are
the identity on numbers resp. booleans, so normalizing an already-normalized
payload changes nothing. -/
theorem coercion_idempotent :
    (∀ (v : JSValue) (f : JSNum), toNumber (.num (toNumber v f)) f = toNumber v f) ∧
    (∀ (v : JSValue) (f : Bool), toBool (.bool (toBool v f)) f = toBool v f) ∧
    (∀ (n : JSNum) (f : JSNum), toNumber (.num n) f = n) ∧
    (∀ (b f : Bool), toBool (.bool b) f = b) :=
  ⟨fun _ _ => rfl, fun _ _ => rfl, fun _ _ => rfl, fun _ _ => rfl⟩

/-- Claim C10: `toNumber` never introduces a non-finite value: whenever the
input is not itself a non-finite number and the fallback is finite, the
result is finite (a string parse is kept only under `Number.isFinite`);
hence every numeric payload field built by `onSubmit` is finite when the
corresponding form fields are strings, finite numbers or non-numbers. -/
theorem toNumber_never_nonfinite :
    (∀ (v : JSValue) (f : JSNum), f.isFinite = true → isNotNonFiniteNumB v = true →
        (toNumber v f).isFinite = true) ∧
    (∀ (salon : Option Salon) (data : ServiceFormData),
        isNotNonFiniteNumB data.price = true →
        isNotNonFiniteNumB data.duration = true →
        isNotNonFiniteNumB data.breakBefore = true →
        isNotNonFiniteNumB data.breakAfter = true →
        (onSubmitClean salon data).price.isFinite = true ∧
        (onSubmitClean salon data).duration.isFinite = true ∧
        (onSubmitClean salon data).breakBefore.isFinite = true ∧
        (onSubmitClean salon data).breakAfter.isFinite = true) := by
  have key : ∀ (v : JSValue) (f : JSNum), f.isFinite = true → isNotNonFiniteNumB v = true →
      (toNumber v f).isFinite = true := by
    intro v f hf hv
    cases v with
    | num n => simpa [toNumber, isNotNonFiniteNumB] using hv
    | str s =>
        simp only [toNumber]
        split
        · assumption
        · exact hf
    | bool b => exact hf
    | arr xs => exact hf
    | obj fs => exact hf
    | null => exact hf
    | undefined => exact hf
  refine ⟨key, fun salon data h1 h2 h3 h4 => ?_⟩
  exact ⟨key data.price (.finite 0) rfl h1, key data.duration (.finite 0) rfl h2,
    key data.breakBefore (.finite 0) rfl h3, key data.breakAfter (.finite 0) rfl h4⟩

/-- Witness for C10 at concrete inputs: an unparseable string yields the
finite fallback, and a concrete parsed form value yields finite payload
numbers. -/
theorem toNumber_never_nonfinite_witness :
    (toNumber (.str "abc") (.finite 0)).isFinite = true ∧
    (onSubmitClean none exampleData).price.isFinite = true :=
  ⟨toNumber_never_nonfinite.1 (.str "abc") (.finite 0) rfl rfl,
   (toNumber_never_nonfinite.2 none exampleData rfl rfl rfl rfl).1⟩

/-- Claim C1: for every form value accepted by `serviceSchema` and every
salon value, the payload assembled by `onSubmit` is normalized: name is the
form's name; description is the form's description (already a string, `""`
when the raw input omitted it); price, duration and the two breaks are
`toNumber` of the corresponding fields with fallback `0`; tags is the
form's tags when it is an array and `[]` otherwise; depositRequired is
`toBool` of the form field with fallback `false`; salonId is the salon's id
or `undefined` (`none`) when no salon is loaded.  That price and duration
are numbers and depositRequired a boolean is recorded by the `Payload`
field types. -/
theorem onSubmit_payload_normalized :
    ∀ (r : RawInput) (data : ServiceFormData) (salon : Option Salon),
      serviceSchemaParse r = .ok data →
      (onSubmitClean salon data).name = data.name ∧
      (onSubmitClean salon data).description = data.description ∧
      (r.description = .undefined → (onSubmitClean salon data).description = .str "") ∧
      (onSubmitClean salon data).price = toNumber data.price (.finite 0) ∧
      (onSubmitClean salon data).duration = toNumber data.duration (.finite 0) ∧
      (onSubmitClean salon data).breakBefore = toNumber data.breakBefore (.finite 0) ∧
      (onSubmitClean salon data).breakAfter = toNumber data.breakAfter (.finite 0) ∧
      (isArrayB data.tags = true → (onSubmitClean salon data).tags = data.tags) ∧
      (isArrayB data.tags = false → (onSubmitClean salon data).tags = .arr []) ∧
      (onSubmitClean salon data).depositRequired = toBool data.depositRequired false ∧
      (onSubmitClean salon data).salonId = salon.map Salon.id ∧
      (salon = none → (onSubmitClean salon data).salonId = none) := by
  intro r data salon h
  have hfields := serviceSchemaParse_ok_fields h
  obtain ⟨s, hs⟩ := zDescriptionField_ok_str hfields.2.1
  refine ⟨rfl, ?_, ?_, rfl, rfl, rfl, rfl, ?_, ?_, rfl, rfl, ?_⟩
  · simp [onSubmitClean, hs, jsNullishCoalesce]
  · intro hu
    have hdesc : zDescriptionField JSValue.undefined = .ok data.description := by
      rw [← hu]; exact hfields.2.1
    have : data.description = .str "" := by
      have := hdesc.symm
      simpa [zDescriptionField] using this
    simp [onSubmitClean, this, jsNullishCoalesce]
  · intro ht
    simp [onSubmitClean, ht]
  · intro ht
    simp [onSubmitClean, ht]
  · intro h0
    subst h0
    rfl

/-- Witness for C1 at a concrete accepted form value with no salon loaded. -/
theorem onSubmit_payload_normalized_witness :
    (onSubmitClean none exampleData).name = exampleData.name ∧
    (onSubmitClean none exampleData).salonId = none :=
  ⟨(onSubmit_payload_normalized exampleRaw exampleData none rfl).1,
   (onSubmit_payload_normalized exampleRaw exampleData none rfl).2.2.2.2.2.2.2.2.2.2.2 rfl⟩

/-- Counterexample to Claim C4 as stated: `illTypedDescriptionRaw` has a
non-empty string name and a number-or-string price and duration, yet
`serviceSchema` rejects it, because its description is a number. -/
theorem serviceSchema_accepts_counterexample :
    illTypedDescriptionRaw.name = .str "Coupe" ∧
    isOkB (zNumOrStr illTypedDescriptionRaw.price) = true ∧
    isOkB (zNumOrStr illTypedDescriptionRaw.duration) = true ∧
    serviceSchemaParse illTypedDescriptionRaw = .error ["Expected string"] :=
  ⟨rfl, rfl, rfl, rfl⟩

/-- Claim C4 (amended): `serviceSchema` rejects every input whose name is
the empty string, with `"Nom requis"` among the issues, and validation
failure prevents `onSubmit` from running, so no create/update request is
issued for an empty name; it accepts every input whose name is a non-empty
string, whose price and duration are each a number other than NaN or a
string, and whose remaining fields each pass their validator (description a
string or absent; breaks a non-NaN number, string or absent; tags an array
of strings or absent; depositRequired a boolean, string or absent). -/
theorem serviceSchema_validation :
    (∀ r : RawInput, r.name = .str "" →
        serviceSchemaParse r = .error (serviceSchemaErrors r) ∧
        "Nom requis" ∈ serviceSchemaErrors r ∧
        ∀ (e : Option EditingService) (s : Option Salon), handleSubmit e s r = none) ∧
    (∀ (r : RawInput) (s : String), r.name = .str s → s ≠ "" →
        isOkB (zNumOrStr r.price) = true →
        isOkB (zNumOrStr r.duration) = true →
        isOkB (zDescriptionField r.description) = true →
        isOkB (zOptional zNumOrStr r.breakBefore) = true →
        isOkB (zOptional zNumOrStr r.breakAfter) = true →
        isOkB (zOptional zStringArray r.tags) = true →
        isOkB (zOptional zBoolOrStr r.depositRequired) = true →
        ∃ data, serviceSchemaParse r = .ok data) := by
  constructor
  · intro r h
    have hn : zNameField r.name = .error "Nom requis" := by
      rw [h]; rfl
    have hmem : "Nom requis" ∈ serviceSchemaErrors r := by
      simp [serviceSchemaErrors, hn, errsOf]
    have hne : serviceSchemaErrors r ≠ [] := by
      intro hc
      rw [hc] at hmem
      exact List.not_mem_nil _ hmem
    have hparse : serviceSchemaParse r = .error (serviceSchemaErrors r) := by
      unfold serviceSchemaParse
      rw [if_neg hne]
    refine ⟨hparse, hmem, fun e s => ?_⟩
    unfold handleSubmit
    rw [hparse]
  · intro r s hname hs h3 h4 h2 h5 h6 h7 h8
    have h1 : isOkB (zNameField r.name) = true := by
      rw [hname]; exact zNameField_ok_of_ne hs
    exact ⟨_, serviceSchemaParse_ok_of h1 h2 h3 h4 h5 h6 h7 h8⟩

/-- Witness for C4 (amended) at concrete inputs: the empty-name input
issues no request, and a fully well-typed input is accepted. -/
theorem serviceSchema_validation_witness :
    handleSubmit none none emptyNameRaw = none ∧
    ∃ data, serviceSchemaParse exampleRaw = .ok data :=
  ⟨((serviceSchema_validation.1 emptyNameRaw rfl).2.2) none none,
   serviceSchema_validation.2 exampleRaw "Coupe" rfl (by decide) rfl rfl rfl rfl rfl rfl rfl⟩

/-- Counterexample to Claim C5 as stated: `emptyNameRaw` omits description,
breakBefore, breakAfter, tags and depositRequired, yet `serviceSchema`
rejects it, because its name is empty. -/
theorem serviceSchema_optional_counterexample :
    emptyNameRaw.description = .undefined ∧
    emptyNameRaw.breakBefore = .undefined ∧
    emptyNameRaw.breakAfter = .undefined ∧
    emptyNameRaw.tags = .undefined ∧
    emptyNameRaw.depositRequired = .undefined ∧
    serviceSchemaParse emptyNameRaw = .error ["Nom requis"] :=
  ⟨rfl, rfl, rfl, rfl, rfl, rfl⟩

/-- Claim C5 (amended): `serviceSchema` accepts every input with valid
required fields (a non-empty string name; price and duration each a number
other than NaN or a string) that omits description, breakBefore, breakAfter,
tags and depositRequired; parsing defaults description to `""`; and for such inputs
the payload assembled by `onSubmit` has breakBefore `0`, breakAfter `0`,
tags `[]` and depositRequired `false`. -/
theorem serviceSchema_optionals_defaulted :
    ∀ (r : RawInput) (s : String), r.name = .str s → s ≠ "" →
      isOkB (zNumOrStr r.price) = true →
      isOkB (zNumOrStr r.duration) = true →
      r.description = .undefined →
      r.breakBefore = .undefined →
      r.breakAfter = .undefined →
      r.tags = .undefined →
      r.depositRequired = .undefined →
      ∃ data, serviceSchemaParse r = .ok data ∧
        data.description = .str "" ∧
        ∀ salon : Option Salon,
          (onSubmitClean salon data).breakBefore = .finite 0 ∧
          (onSubmitClean salon data).breakAfter = .finite 0 ∧
          (onSubmitClean salon data).tags = .arr [] ∧
          (onSubmitClean salon data).depositRequired = false := by
  intro r s hname hs h3 h4 hd hbb hba ht hdr
  have h1 : isOkB (zNameField r.name) = true := by
    rw [hname]; exact zNameField_ok_of_ne hs
  have h2 : isOkB (zDescriptionField r.description) = true := by rw [hd]; rfl
  have h5 : isOkB (zOptional zNumOrStr r.breakBefore) = true := by rw [hbb]; rfl
  have h6 : isOkB (zOptional zNumOrStr r.breakAfter) = true := by rw [hba]; rfl
  have h7 : isOkB (zOptional zStringArray r.tags) = true := by rw [ht]; rfl
  have h8 : isOkB (zOptional zBoolOrStr r.depositRequired) = true := by rw [hdr]; rfl
  refine ⟨_, serviceSchemaParse_ok_of h1 h2 h3 h4 h5 h6 h7 h8, ?_, ?_⟩
  · show okVal (zDescriptionField r.description) = .str ""
    rw [hd]; rfl
  · intro salon
    refine ⟨?_, ?_, ?_, ?_⟩
    · show toNumber (okVal (zOptional zNumOrStr r.breakBefore)) (.finite 0) = .finite 0
      rw [hbb]; rfl
    · show toNumber (okVal (zOptional zNumOrStr r.breakAfter)) (.finite 0) = .finite 0
      rw [hba]; rfl
    · show (if isArrayB (okVal (zOptional zStringArray r.tags)) then
          okVal (zOptional zStringArray r.tags) else .arr []) = .arr []
      rw [ht]; rfl
    · show toBool (okVal (zOptional zBoolOrStr r.depositRequired)) false = false
      rw [hdr]; rfl

/-- Witness for C5 (amended) at the concrete input `exampleRaw`, which
omits all five optional fields. -/
theorem serviceSchema_optionals_defaulted_witness :
    ∃ data, serviceSchemaParse exampleRaw = .ok data ∧
      data.description = .str "" ∧
      ∀ salon : Option Salon,
        (onSubmitClean salon data).breakBefore = .finite 0 ∧
        (onSubmitClean salon data).breakAfter = .finite 0 ∧
        (onSubmitClean salon data).tags = .arr [] ∧
        (onSubmitClean salon data).depositRequired = false :=
  serviceSchema_optionals_defaulted exampleRaw "Coupe" rfl (by decide) rfl rfl rfl rfl rfl
    rfl rfl

/-- Claim C6: for every response with `ok` false, the create and update
mutation functions raise the `onApiError` toast and throw, so the mutation
fails; for every response with `ok` true (and a parseable body) they return
the parsed JSON body and raise no toast.  The toast message is derived from
the body's `message` field when truthy, else from its JSON serialization,
else from `res.text()`, else it is `"Erreur inconnue"`. -/
theorem mutation_failure_handling :
    ∀ res : Response,
      (res.ok = false →
        createMutationFn res = (.thrown "create failed", [onApiError res]) ∧
        updateMutationFn res = (.thrown "update failed", [onApiError res])) ∧
      (∀ j : JSValue, res.ok = true → res.json = some j →
        createMutationFn res = (.success j, []) ∧
        updateMutationFn res = (.success j, [])) ∧
      (∀ data : JSValue, res.json = some data → truthy (jsMessageField data) = true →
        apiErrorMessage res = jsMessageField data) ∧
      (∀ data : JSValue, res.json = some data → truthy (jsMessageField data) = false →
        apiErrorMessage res = .str (jsonStringify data)) ∧
      (∀ t : String, res.json = none → res.text = some t → apiErrorMessage res = .str t) ∧
      (res.json = none → res.text = none → apiErrorMessage res = .str "Erreur inconnue") := by
  intro res
  refine ⟨fun hok => ?_, fun j hok hj => ?_, fun data hj ht => ?_, fun data hj ht => ?_,
    fun t hj ht => ?_, fun hj ht => ?_⟩
  · constructor <;> simp [createMutationFn, updateMutationFn, hok]
  · constructor <;> simp [createMutationFn, updateMutationFn, hok, hj]
  · simp [apiErrorMessage, hj, jsOr, ht]
  · simp [apiErrorMessage, hj, jsOr, ht]
  · simp [apiErrorMessage, hj, ht]
  · simp [apiErrorMessage, hj, ht]

/-- Witness for C6 at concrete responses: a failing response with a truthy
`message` field, and a successful one. -/
theorem mutation_failure_handling_witness :
    createMutationFn exampleFailResponse =
      (.thrown "create failed", [onApiError exampleFailResponse]) ∧
    apiErrorMessage exampleFailResponse = .str "Service invalide" ∧
    updateMutationFn exampleOkResponse = (.success (.obj []), []) :=
  ⟨((mutation_failure_handling exampleFailResponse).1 rfl).1,
   ((mutation_failure_handling exampleFailResponse).2.2.1
      (.obj [("message", .str "Service invalide")]) rfl rfl).trans rfl,
   ((mutation_failure_handling exampleOkResponse).2.1 (.obj []) rfl rfl).2⟩

/-- Claim C7: the salon is read-only on this page: the submit pipeline only
issues requests against `/api/services` (POST) or `/api/services/id` (PUT),
never against `/api/salon`; the two queries are GETs; and `onSubmit`
depends on the salon only through `salon?.id` (read into the payload's
`salonId`). -/
theorem salon_read_only :
    (∀ (e : Option EditingService) (s : Option Salon) (d : ServiceFormData),
        (submitRequest e s d).url ≠ "/api/salon" ∧
        ((submitRequest e s d).method = .POST ∨ (submitRequest e s d).method = .PUT)) ∧
    salonQueryRequest.method = .GET ∧
    servicesQueryRequest.method = .GET ∧
    (∀ (s s' : Option Salon) (d : ServiceFormData),
        s.map Salon.id = s'.map Salon.id → onSubmitClean s d = onSubmitClean s' d) := by
  refine ⟨fun e s d => ?_, rfl, rfl, fun s s' d h => ?_⟩
  · cases e with
    | none =>
        refine ⟨?_, Or.inl rfl⟩
        intro hc
        have hurl : (submitRequest none s d).url = "/api/services" := rfl
        rw [hurl] at hc
        exact absurd hc (by decide)
    | some ev =>
        refine ⟨?_, Or.inr rfl⟩
        intro hc
        have hurl : (submitRequest (some ev) s d).url = "/api/services/" ++ ev.id := rfl
        rw [hurl] at hc
        have hlen := congrArg String.length hc
        rw [String.length_append] at hlen
        have h14 : "/api/services/".length = 14 := by decide
        have h10 : "/api/salon".length = 10 := by decide
        rw [h14, h10] at hlen
        omega
  · unfold onSubmitClean
    rw [h]

/-- Witness for C7 at concrete inputs: a create submission targets
`/api/services`, and two salon values with the same id produce the same
payload. -/
theorem salon_read_only_witness :
    (submitRequest none none exampleData).url ≠ "/api/salon" ∧
    onSubmitClean (some { id := "salon-1" }) exampleData =
      onSubmitClean (some { id := "salon-1" }) exampleData :=
  ⟨(salon_read_only.1 none none exampleData).1,
   salon_read_only.2.2.2 (some { id := "salon-1" }) (some { id := "salon-1" })
     exampleData rfl⟩

/-- Claim C8: whenever the create or the update mutation is pending, the
submit button is rendered disabled with label `"Enregistrement..."`, so no
new create or update request can be started from the dialog while one is
already in flight. -/
theorem pending_disables_submit :
    ∀ createPending updatePending : Bool,
      (createPending = true ∨ updatePending = true) →
      submitButtonDisabled createPending updatePending = true ∧
      submitButtonLabel createPending updatePending = "Enregistrement..." ∧
      ∀ (e : Option EditingService) (s : Option Salon) (r : RawInput),
        dialogSubmitAttempt createPending updatePending e s r = none := by
  intro cp up h
  have hd : (cp || up) = true := by
    rcases h with h | h
    · rw [h]; rfl
    · rw [h]; simp
  refine ⟨hd, ?_, fun e s r => ?_⟩
  · simp [submitButtonLabel, hd]
  · simp [dialogSubmitAttempt, submitButtonDisabled, hd]

/-- Witness for C8 with the create mutation pending. -/
theorem pending_disables_submit_witness :
    submitButtonDisabled true false = true ∧
    dialogSubmitAttempt true false none none exampleRaw = none :=
  ⟨(pending_disables_submit true false (Or.inl rfl)).1,
   (pending_disables_submit true false (Or.inl rfl)).2.2 none none exampleRaw⟩

end SalonPilot
